import Mathlib

/-!
Shallow embedding of `sdm::DisplayBuiltIn` (src/sdm/libs/core/display_builtin.cpp)
from hardware/qcom/display, restricted to the control-state logic exercised by
the verified properties: the adaptive-sync ("qsync") state machine, refresh-rate
control with idle clamping, the partial-update skip-validate fast path, panel
brightness conversion, and the `Init` error paths.

Modelling conventions:
* C++ member state is an explicit record (`QsyncState`, `RefreshState`, ...);
  each embedded method is a pure function from the old state (plus the
  outcomes of external collaborator calls, passed as arguments) to the result
  and the new state.
* Calls into external collaborators (`hw_intf_`, `comp_manager_`, the event
  handler, panel-feature plugins) either take their result as an explicit
  argument or are recorded in an action trace; their internal behaviour is
  outside the embedded sources.
* C++ floats in the brightness path are modelled with exact rationals (`ℚ`);
  `static_cast<int>` is truncation toward zero.
* `std::bitset<32>` update masks are modelled as `Nat` bit patterns.
-/

namespace sdm

/-- `DisplayError` from the sdm core headers (the constructors used in
display_builtin.cpp). -/
inductive DisplayError where
  | kErrorNone
  | kErrorUndefined
  | kErrorNotSupported
  | kErrorParameters
  | kErrorMemory
  | kErrorResources
  | kErrorDriverData
  | kErrorDeferred
  | kErrorNotValidated
  | kErrorNoAppLayers
  | kErrorPermission
  deriving DecidableEq, Repr

export DisplayError (kErrorNone kErrorUndefined kErrorNotSupported kErrorParameters
  kErrorMemory kErrorResources kErrorDriverData kErrorDeferred kErrorNotValidated
  kErrorNoAppLayers kErrorPermission)

/-- `QSyncMode` from the sdm core headers. -/
inductive QSyncMode where
  | kQSyncModeNone
  | kQSyncModeContinuous
  | kQsyncModeOneShot
  | kQsyncModeOneShotContinuous
  deriving DecidableEq, Repr

export QSyncMode (kQSyncModeNone kQSyncModeContinuous kQsyncModeOneShot
  kQsyncModeOneShotContinuous)

/-- `HWAVRModes` from the sdm core headers. -/
inductive HWAVRModes where
  | kQsyncNone
  | kContinuousMode
  | kOneShotMode
  deriving DecidableEq, Repr

/-- `HWDisplayMode` from the sdm core headers. -/
inductive HWDisplayMode where
  | kModeDefault
  | kModeVideo
  | kModeCommand
  deriving DecidableEq, Repr

/-- The `DisplayBuiltIn` member state read and written by the qsync paths
(`UpdateQsyncMode`, `SetQSyncMode`, `GetQSyncMode`, `HandleQsyncPostCommit`).
`avr_update` / `avr_mode` stand for `disp_layer_stack_.info.hw_avr_info`. -/
structure QsyncState where
  qsync_mode : QSyncMode             -- qsync_mode_ (client-requested mode)
  active_qsync_mode : QSyncMode      -- active_qsync_mode_
  needs_avr_update : Bool            -- needs_avr_update_
  validated : Bool                   -- validated_
  qsync_support : Bool               -- hw_panel_info_.qsync_support
  panel_mode : HWDisplayMode         -- hw_panel_info_.mode
  first_cycle : Bool                 -- first_cycle_
  handle_idle_timeout : Bool         -- handle_idle_timeout_
  enable_qsync_idle : Bool           -- enable_qsync_idle_
  avr_update : Bool                  -- disp_layer_stack_.info.hw_avr_info.update
  avr_mode : HWAVRModes              -- disp_layer_stack_.info.hw_avr_info.mode
  deriving DecidableEq, Repr

/-- `DisplayBuiltIn::GetAvrMode`. -/
def GetAvrMode (mode : QSyncMode) : HWAVRModes :=
  match mode with
  | kQSyncModeNone => HWAVRModes.kQsyncNone
  | kQSyncModeContinuous => HWAVRModes.kContinuousMode
  | kQsyncModeOneShot => HWAVRModes.kOneShotMode
  | kQsyncModeOneShotContinuous => HWAVRModes.kOneShotMode

/-- `DisplayBuiltIn::UpdateQsyncMode`: early-out unless the panel supports
qsync and is not in command mode; otherwise compute the effective mode (the
idle override forces continuous), set the frame's hw avr info, and store the
effective mode in `active_qsync_mode_`. `qsync_mode_` is not written. -/
def UpdateQsyncMode (s : QsyncState) : QsyncState :=
  if !s.qsync_support || s.panel_mode = HWDisplayMode.kModeCommand then
    s
  else
    let mode : QSyncMode :=
      if s.handle_idle_timeout && s.enable_qsync_idle then
        kQSyncModeContinuous
      else
        s.qsync_mode
    { s with
      avr_update := decide (mode ≠ s.active_qsync_mode) || s.needs_avr_update
      avr_mode := GetAvrMode mode
      active_qsync_mode := mode }

/-- `DisplayBuiltIn::GetQSyncMode`: reports `active_qsync_mode_`. -/
def GetQSyncMode (s : QsyncState) : DisplayError × QSyncMode :=
  (kErrorNone, s.active_qsync_mode)

/-- `DisplayBuiltIn::SetQSyncMode`: rejected without qsync support or before
the first frame cycle; a request equal to the stored requested mode
(`qsync_mode_`) returns success with no state change; otherwise the request
is stored and the needs-avr-update flag raised, invalidating validation.
(The `event_handler_->Refresh()` notification is external.) -/
def SetQSyncMode (s : QsyncState) (qsync_mode : QSyncMode) :
    DisplayError × QsyncState :=
  if !s.qsync_support || s.first_cycle then
    (kErrorNotSupported, s)
  else if s.qsync_mode = qsync_mode then
    (kErrorNone, s)
  else
    (kErrorNone,
     { s with qsync_mode := qsync_mode, needs_avr_update := true, validated := false })

/-- `DisplayBuiltIn::HandleQsyncPostCommit`, restricted to the qsync fields it
touches (the vsync re-enable and the idle notification drive external
interfaces). The branch is on the stored requested mode `qsync_mode_`. -/
def HandleQsyncPostCommit (s : QsyncState) : QsyncState :=
  if s.qsync_mode = kQsyncModeOneShot then
    (SetQSyncMode s kQSyncModeNone).2
  else if s.qsync_mode = kQsyncModeOneShotContinuous then
    s
  else if s.qsync_mode = kQSyncModeContinuous then
    { s with needs_avr_update := false }
  else if s.qsync_mode = kQSyncModeNone then
    { s with needs_avr_update := false }
  else
    s

/-- Modelled from the spec: the `DeferredConfig` state object ("target fps,
target vsync period, target transfer time, remaining frame countdown, dirty
flag") whose definition lives in display_builtin.h, which is not among the
sources; only its use sites in display_builtin.cpp are. -/
structure DeferFpsConfig where
  fps : Nat
  vsync_period_ns : Nat
  transfer_time_us : Nat
  frame_count : Nat        -- configured defer length (DEFER_FPS_FRAME_COUNT)
  frames_remaining : Nat   -- remaining frame countdown
  dirty : Bool
  deriving DecidableEq, Repr

/-- Modelled from the spec: `deferred_config_.MarkDirty()` raises the
`DeferredConfig` dirty flag (display_builtin.h is not among the sources). -/
def DeferFpsConfig.MarkDirty (c : DeferFpsConfig) : DeferFpsConfig :=
  { c with dirty := true }

/-- The `DisplayBuiltIn` member state read and written by
`SetRefreshRate` / `CanLowerFps`. Timestamps carry the millisecond values of
`GetTimeInMs`; the current wall-clock reading is an explicit argument. -/
structure RefreshState where
  active : Bool                  -- active_
  dynamic_fps : Bool             -- hw_panel_info_.dynamic_fps
  qsync_mode : QSyncMode         -- qsync_mode_
  disable_dyn_fps : Bool         -- disable_dyn_fps_
  min_fps : Nat                  -- hw_panel_info_.min_fps
  max_fps : Nat                  -- hw_panel_info_.max_fps
  current_refresh_rate : Nat     -- current_refresh_rate_
  enable_qsync_idle : Bool       -- enable_qsync_idle_
  enhance_idle_time : Bool       -- enhance_idle_time_
  handle_idle_timeout : Bool     -- handle_idle_timeout_
  idle_time_ms : Nat             -- idle_time_ms_
  idle_timer_start_ms : Nat      -- GetTimeInMs(idle_timer_start_)
  deferred : DeferFpsConfig      -- deferred_config_
  deriving DecidableEq, Repr

/-- `DisplayBuiltIn::CanLowerFps`: without the enhanced-idle-time policy the
idle flag alone decides; with it, additionally the screen must be reported
idle and the idle timer must have elapsed. The elapsed-time subtraction is
the C++ `uint64_t` difference of the two millisecond readings. -/
def CanLowerFps (s : RefreshState) (idle_screen : Bool) (now_ms : Nat) : Bool :=
  if !s.enhance_idle_time then
    s.handle_idle_timeout
  else if !s.handle_idle_timeout || !idle_screen then
    false
  else
    let elapsed_time_ms := (2 ^ 64 + now_ms - s.idle_timer_start_ms) % 2 ^ 64
    decide (elapsed_time_ms ≥ s.idle_time_ms)

/-- The outcome of one `DisplayBuiltIn::SetRefreshRate` call: returned error,
new member state, the rate passed to `hw_intf_->SetRefreshRate` when that
call was issued, and whether `CheckEnforceSplit`, `ProcessIdleTimeout` and
the trailing `ReconfigureDisplay()` were invoked. -/
structure SetRefreshRateResult where
  result : DisplayError
  state : RefreshState
  hw_set_rate : Option Nat
  enforce_split_checked : Bool
  processed_idle_timeout : Bool
  reconfigure_invoked : Bool
  deriving DecidableEq, Repr

/-- `DisplayBuiltIn::SetRefreshRate`. External-call results are arguments:
`hw_set_result` for `hw_intf_->SetRefreshRate`, `split_result` for
`comp_manager_->CheckEnforceSplit`, `reconf_result` for the trailing
`ReconfigureDisplay()` (whose own attribute refetch acts outside the fields
tracked here). On every accepted request the code falls through to
`current_refresh_rate_` assignment, `deferred_config_.MarkDirty()` and
`ReconfigureDisplay()`, also when the (possibly clamped) target equals the
current rate. -/
def SetRefreshRate (s : RefreshState) (refresh_rate : Nat)
    (final_rate idle_screen : Bool) (now_ms : Nat)
    (hw_set_result split_result reconf_result : DisplayError) :
    SetRefreshRateResult :=
  if !s.active || !s.dynamic_fps || s.qsync_mode ≠ kQSyncModeNone
      || s.disable_dyn_fps then
    ⟨kErrorNotSupported, s, none, false, false, false⟩
  else if refresh_rate < s.min_fps || refresh_rate > s.max_fps then
    ⟨kErrorParameters, s, none, false, false, false⟩
  else
    let rate :=
      if CanLowerFps s idle_screen now_ms && !final_rate && !s.enable_qsync_idle
      then s.min_fps
      else refresh_rate
    let hw_set_rate : Option Nat :=
      if s.current_refresh_rate ≠ rate then some rate else none
    if s.current_refresh_rate ≠ rate ∧ hw_set_result ≠ kErrorNone then
      ⟨hw_set_result, { s with handle_idle_timeout := false }, hw_set_rate,
       false, false, false⟩
    else if s.current_refresh_rate ≠ rate ∧ split_result ≠ kErrorNone then
      ⟨split_result, s, hw_set_rate, true, false, false⟩
    else
      let pit := s.enhance_idle_time && s.handle_idle_timeout
                   && decide (rate = s.min_fps)
      ⟨reconf_result,
       { s with current_refresh_rate := rate, deferred := s.deferred.MarkDirty },
       hw_set_rate, s.current_refresh_rate ≠ rate, pit, true⟩

/-! ## Panel brightness (exact-rational model of the float computation) -/

/-- C++ `static_cast<int>` on a floating value: truncation toward zero. -/
def cppTruncInt (q : ℚ) : ℤ :=
  if 0 ≤ q then ⌊q⌋ else ⌈q⌉

/-- The level computation of `DisplayBuiltIn::SetPanelBrightness` (the part up
to the `hw_intf_->SetPanelBrightness(level)` call): validates the request,
maps `-1.0` to level 0, otherwise computes the integer level and the
fractional remainder that is stored in `level_remainder_` once the hardware
call succeeds. Floats are modelled as exact rationals. -/
def SetPanelBrightnessLevel (min max brightness : ℚ) :
    Except DisplayError (ℤ × ℚ) :=
  if brightness ≠ -1 ∧ ¬(0 ≤ brightness ∧ brightness ≤ 1) then
    .error kErrorParameters
  else if brightness = -1 then
    .ok (0, 0)
  else if min ≥ max then
    .error kErrorDriverData
  else
    let t := brightness * (max - min) + min
    let level := cppTruncInt t
    .ok (level, t - (level : ℚ))

/-- `DisplayBuiltIn::GetPanelBrightnessFromLevel`: level 0 reads back as the
off sentinel `-1.0`; a level within `[min, max]` (with `max > min`) reads
back as `(level + level_remainder_ - min) / (max - min)`; anything else is a
driver-data error. -/
def GetPanelBrightnessFromLevel (min max level_remainder level : ℚ) :
    Except DisplayError ℚ :=
  if level = 0 then
    .ok (-1)
  else if max > min ∧ (min ≤ level ∧ level ≤ max) then
    .ok ((level + level_remainder - min) / (max - min))
  else
    .error kErrorDriverData

/-! ## The Prepare fast path (skip of full validation) -/

/-- A rectangle (`LayerRect`); coordinates as integers. -/
structure Rect where
  left : Int
  top : Int
  right : Int
  bottom : Int
  deriving DecidableEq, Repr

/-- `IsCongruent` (utils/rect): the cached and freshly generated frame
regions-of-interest compare as equal rectangles. -/
def IsCongruent (a b : Rect) : Bool :=
  a = b

/-- The update-mask bit index `kSurfaceDamage` of the layer-stack `UpdateType`
enum (declared outside these sources). The proofs depend only on a mask
equalling this single bit, not on the index's numeric value. -/
def kSurfaceDamage : Nat := 2

/-- One submitted layer, restricted to the fields the fast path reads:
the `std::bitset<32>` update mask (as a bit pattern) and the per-layer dirty
regions. -/
structure Layer where
  update_mask : Nat
  dirty_regions : List Rect
  deriving DecidableEq, Repr

/-- A submitted `LayerStack`, restricted to the fields the fast path reads
(`flags.geometry_changed`, `flags.skip_present`, `flags.stitch_present`,
`flags.demura_present`, `needs_validate`, `layers`). -/
structure LayerStack where
  layers : List Layer
  geometry_changed : Bool
  skip_present : Bool
  stitch_present : Bool
  demura_present : Bool
  needs_validate : Bool
  deriving DecidableEq, Repr

/-- The `DisplayBuiltIn` member state read by `CanCompareFrameROI` and
`CanSkipDisplayPrepare`. `hw_dirty_sizes` are the dirty-region counts of
`disp_layer_stack_.info.hw_layers`, `hw_index` is
`disp_layer_stack_.info.index`, and the two cached rectangles are
`left_frame_roi_` / `right_frame_roi_`. -/
structure RoiState where
  needs_validate : Bool               -- needs_validate_
  safe_mode : Bool                    -- comp_manager_->IsSafeMode()
  partial_update : Bool               -- hw_panel_info_.partial_update
  left_roi_count : Nat                -- hw_panel_info_.left_roi_count
  app_layer_count : Nat               -- disp_layer_stack_.info.app_layer_count
  color_mgr_present : Bool            -- color_mgr_ != nullptr
  color_needs_pu_disable : Bool       -- color_mgr_->NeedsPartialUpdateDisable()
  partial_update_control : Bool       -- partial_update_control_
  disable_pu_one_frame : Bool         -- disable_pu_one_frame_
  disable_pu_on_dest_scaler : Bool    -- disable_pu_on_dest_scaler_
  hw_dirty_sizes : List Nat
  hw_index : List Nat
  left_frame_roi : Rect
  right_frame_roi : Rect
  deriving DecidableEq, Repr

/-- The update-mask loop of `CanCompareFrameROI`: a clean mask is skipped, a
mask that is exactly the surface-damage bit records that damage was seen, and
any other bit combination aborts with `false`; the accumulated
`surface_damage` flag is the result. -/
def surfaceDamageScan : List Layer → Bool → Bool
  | [], surface_damage => surface_damage
  | layer :: rest, surface_damage =>
    if layer.update_mask = 0 then
      surfaceDamageScan rest surface_damage
    else if layer.update_mask = 2 ^ kSurfaceDamage then
      surfaceDamageScan rest true
    else
      false

/-- The `stack_fudge_factor` of `CanCompareFrameROI` (and the matching
`size_ff` of `CanSkipDisplayPrepare`): the GPU target layer is always present
in the input, the stitch and demura (compensation-overlay) targets when their
flags say so. -/
def stackFudgeFactor (ls : LayerStack) : Nat :=
  1 + (if ls.stitch_present then 1 else 0) + (if ls.demura_present then 1 else 0)

/-- `DisplayBuiltIn::CanCompareFrameROI`. The call to
`DisablePartialUpdateOneFrameInternal()` (issued when the color manager asks
for a partial-update disable) raises `disable_pu_one_frame_` before the next
condition reads it, which is how the `let` below renders it. -/
def CanCompareFrameROI (s : RoiState) (ls : LayerStack) : Bool :=
  if s.needs_validate || s.safe_mode || ls.needs_validate then
    false
  else if !s.partial_update || s.left_roi_count ≠ 1 || ls.geometry_changed
      || ls.skip_present
      || ls.layers.length ≠ s.app_layer_count + stackFudgeFactor ls then
    false
  else
    let disable_pu_one_frame :=
      s.disable_pu_one_frame || (s.color_mgr_present && s.color_needs_pu_disable)
    if !s.partial_update_control || disable_pu_one_frame
        || s.disable_pu_on_dest_scaler then
      false
    else
      surfaceDamageScan ls.layers false

/-- The dirty-region copy loop of `CanSkipDisplayPrepare`: for each hw layer
`j`, the sdm layer at `index.at(j)` must carry the same number of dirty
regions (the copy itself does not affect the decision). -/
def dirtySizesMatch (hw_dirty_sizes hw_index : List Nat) (layers : List Layer) :
    Bool :=
  (hw_dirty_sizes.zip hw_index).all fun p =>
    p.1 = (layers.getD p.2 ⟨0, []⟩).dirty_regions.length

/-- `DisplayBuiltIn::CanSkipDisplayPrepare`. The regenerated frame
regions-of-interest (the `left_frame_roi` / `right_frame_roi` lists produced
by `comp_manager_->GenerateROI`) are arguments. The composition-type
assignment performed on a hit only mutates the submitted layers, never the
decision. -/
def CanSkipDisplayPrepare (s : RoiState) (ls : LayerStack)
    (gen_left gen_right : List Rect) : Bool :=
  if !CanCompareFrameROI s ls then
    false
  else if gen_left.length = 0 || gen_right.length = 0 then
    false
  else
    let same_roi :=
      IsCongruent s.left_frame_roi (gen_left.getD 0 ⟨0, 0, 0, 0⟩) &&
      IsCongruent s.right_frame_roi (gen_right.getD 0 ⟨0, 0, 0, 0⟩)
    if same_roi then
      if !dirtySizesMatch s.hw_dirty_sizes s.hw_index ls.layers then
        false
      else
        same_roi
    else
      same_roi

/-! ## Init and its error paths -/

/-- The initialization and teardown steps `DisplayBuiltIn::Init` can issue, in
program order, recorded as a trace. -/
inductive InitAction where
  | createHWInterface
  | destroyHWInterface
  | baseInit
  | baseDeinit
  | createHWEvents
  | initColorSamplingState
  | setupSPR
  | setupDemura
  | freeDemuraFetchResources
  | setDemuraStatusForDisplay (enabled : Bool)
  | setDemuraIntfStatus (enabled : Bool)
  | noiseInit
  deriving DecidableEq, Repr

/-- `DisplayBuiltIn::SetupSPR`: with the SPR property off, success without
creating anything; otherwise a failed `CreateSPRIntf` or a nonzero
`spr_->Init()` is a resource error. -/
def SetupSPR (spr_prop_enabled create_ok : Bool) (init_ret : Int) :
    DisplayError :=
  if spr_prop_enabled then
    if !create_ok then kErrorResources
    else if init_ret ≠ 0 then kErrorResources
    else kErrorNone
  else kErrorNone

/-- `DisplayBuiltIn::SetupDemura`: when the feature is globally off or
disabled by property (`disable_prop > 0`), the fetch resources are freed, the
display's demura status is cleared and the call succeeds; with
`disable_prop = 0` the interface is created, initialized, the overlay layer
set up and the interface activated, each failure mapping to the listed error;
a negative property value is undefined. Returns the error and the collaborator
calls issued. -/
def SetupDemura (demura_enabled : Bool) (disable_prop : Int) (create_ok : Bool)
    (init_ret : Int) (setup_layer : DisplayError) (set_status_ret : Int) :
    DisplayError × List InitAction :=
  if !demura_enabled then
    (kErrorNone, [.freeDemuraFetchResources, .setDemuraStatusForDisplay false])
  else if disable_prop > 0 then
    (kErrorNone, [.freeDemuraFetchResources, .setDemuraStatusForDisplay false])
  else if disable_prop = 0 then
    if !create_ok then (kErrorMemory, [])
    else if init_ret ≠ 0 then (kErrorUndefined, [])
    else if setup_layer ≠ kErrorNone then (kErrorUndefined, [])
    else if set_status_ret ≠ 0 then (kErrorUndefined, [.setDemuraIntfStatus true])
    else
      (kErrorNone, [.setDemuraIntfStatus true, .setDemuraStatusForDisplay true])
  else
    (kErrorUndefined, [])

/-- The outcomes of the external calls `DisplayBuiltIn::Init` makes, in the
order the code can reach them. -/
structure InitEnv where
  hw_create : DisplayError          -- HWInterface::Create
  base_init : DisplayError          -- DisplayBase::Init
  events_create : DisplayError      -- HWEventsInterface::Create
  pf_factory_present : Bool         -- pf_factory_ && prop_intf_
  spr_prop_enabled : Bool           -- ENABLE_SPR property
  spr_create_ok : Bool              -- CreateSPRIntf returned non-null
  spr_init_ret : Int                -- spr_->Init()
  demura_enabled : Bool             -- comp_manager_->GetDemuraStatus()
  demura_disable_prop : Int         -- DISABLE_DEMURA_{PRIMARY,SECONDARY}
  demura_create_ok : Bool           -- CreateDemuraIntf returned non-null
  demura_init_ret : Int             -- demura_->Init()
  demura_setup_layer : DisplayError -- SetupDemuraLayer()
  demura_set_status_ret : Int       -- SetDemuraIntfStatus(true)
  deriving DecidableEq, Repr

/-- `DisplayBuiltIn::Init` as a function of its external-call outcomes,
returning the error it returns and the trace of initialization / teardown
steps. A failed `HWInterface::Create` or `DisplayBase::Init` returns at once.
A failed `HWEventsInterface::Create` runs the unwind pair
(`DisplayBase::Deinit`, `HWInterface::Destroy`) but, lacking a `return`,
falls through into the rest of initialization; the local `error` still holds
that failure unless the panel-feature path overwrites it with the `SetupSPR`
result. A `SetupSPR` failure unwinds and returns it; a `SetupDemura` failure
is handled in place (resources freed, demura disabled) without touching
`error`. -/
def Init (env : InitEnv) : DisplayError × List InitAction :=
  if env.hw_create ≠ kErrorNone then
    (env.hw_create, [.createHWInterface])
  else if env.base_init ≠ kErrorNone then
    (env.base_init, [.createHWInterface, .baseInit, .destroyHWInterface])
  else
    let unwind : List InitAction :=
      if env.events_create ≠ kErrorNone then [.baseDeinit, .destroyHWInterface]
      else []
    let pre := [InitAction.createHWInterface, .baseInit, .createHWEvents]
        ++ unwind ++ [.initColorSamplingState]
    if env.pf_factory_present then
      let spr := SetupSPR env.spr_prop_enabled env.spr_create_ok env.spr_init_ret
      if spr ≠ kErrorNone then
        (spr, pre ++ [.setupSPR, .baseDeinit, .destroyHWInterface])
      else
        let demura := SetupDemura env.demura_enabled env.demura_disable_prop
          env.demura_create_ok env.demura_init_ret env.demura_setup_layer
          env.demura_set_status_ret
        let demura_nonnull := env.demura_enabled
          && decide (env.demura_disable_prop = 0) && env.demura_create_ok
        let handled : List InitAction :=
          if demura.1 ≠ kErrorNone then
            [.freeDemuraFetchResources, .setDemuraStatusForDisplay false]
              ++ (if demura_nonnull then [.setDemuraIntfStatus false] else [])
          else []
        (spr, pre ++ [.setupSPR, .setupDemura] ++ demura.2 ++ handled
          ++ [.noiseInit])
    else
      (env.events_create, pre ++ [.noiseInit])

/-! ## Theorems -/

/-- A successful update-mask scan means every mask was clean or exactly the
surface-damage bit, and damage was seen unless the accumulator started true. -/
theorem surfaceDamageScan_true (ls : List Layer) :
    ∀ sd : Bool, surfaceDamageScan ls sd = true →
      (∀ l ∈ ls, l.update_mask = 0 ∨ l.update_mask = 2 ^ kSurfaceDamage) ∧
      (sd = true ∨ ∃ l ∈ ls, l.update_mask = 2 ^ kSurfaceDamage) := by
  induction ls with
  | nil =>
    intro sd h
    simp only [surfaceDamageScan] at h
    simp [h]
  | cons layer rest ih =>
    intro sd h
    simp only [surfaceDamageScan] at h
    split_ifs at h with h0 hsd
    · obtain ⟨ha, hb⟩ := ih sd h
      refine ⟨?_, ?_⟩
      · intro l hl
        rcases List.mem_cons.1 hl with rfl | hl
        · exact Or.inl h0
        · exact ha l hl
      · rcases hb with hb | ⟨l, hl, hm⟩
        · exact Or.inl hb
        · exact Or.inr ⟨l, List.mem_cons_of_mem _ hl, hm⟩
    · obtain ⟨ha, _⟩ := ih true h
      refine ⟨?_, Or.inr ⟨layer, List.mem_cons_self _ _, hsd⟩⟩
      intro l hl
      rcases List.mem_cons.1 hl with rfl | hl
      · exact Or.inr hsd
      · exact ha l hl

/-- C1: when the Prepare fast path is taken (`CanSkipDisplayPrepare` returns
true, which is what makes `PrePrepare` skip full validation), every submitted
layer's update mask is empty or exactly the surface-damage bit, some layer
carries that bit, no geometry/skip/validate flag is set, the panel supports
partial update, and the submitted layer count equals the prior frame's
app-layer count plus the synthetic layers (GPU target, plus stitch and
demura overlay when present). -/
theorem C1_fast_path_only_if (s : RoiState) (ls : LayerStack)
    (gen_left gen_right : List Rect)
    (h : CanSkipDisplayPrepare s ls gen_left gen_right = true) :
    (∀ l ∈ ls.layers, l.update_mask = 0 ∨ l.update_mask = 2 ^ kSurfaceDamage) ∧
    (∃ l ∈ ls.layers, l.update_mask = 2 ^ kSurfaceDamage) ∧
    ls.geometry_changed = false ∧ ls.skip_present = false ∧
    ls.needs_validate = false ∧ s.needs_validate = false ∧
    s.partial_update = true ∧
    ls.layers.length = s.app_layer_count + stackFudgeFactor ls := by
  have hc : CanCompareFrameROI s ls = true := by
    by_contra hcc
    rw [Bool.not_eq_true] at hcc
    rw [CanSkipDisplayPrepare] at h
    simp [hcc] at h
  simp only [CanCompareFrameROI] at hc
  split_ifs at hc with h1 h2 h3
  obtain ⟨hall, hex⟩ := surfaceDamageScan_true ls.layers false hc
  simp only [Bool.or_eq_true, not_or, Bool.not_eq_true, Bool.not_eq_false',
    decide_eq_false_iff_not, not_not] at h1 h2
  refine ⟨hall, ?_, h2.1.1.2, h2.1.2, h1.2, h1.1.1, h2.1.1.1.1, h2.2⟩
  rcases hex with hex | hex
  · exact absurd hex (by simp)
  · exact hex

/-- The concrete display state of the C1 witness. -/
def c1State : RoiState :=
  { needs_validate := false, safe_mode := false, partial_update := true,
    left_roi_count := 1, app_layer_count := 1, color_mgr_present := false,
    color_needs_pu_disable := false, partial_update_control := true,
    disable_pu_one_frame := false, disable_pu_on_dest_scaler := false,
    hw_dirty_sizes := [], hw_index := [],
    left_frame_roi := ⟨0, 0, 100, 100⟩, right_frame_roi := ⟨0, 0, 100, 100⟩ }

/-- The concrete submitted stack of the C1 witness: one app layer whose mask
is exactly the surface-damage bit, and a clean GPU target layer. -/
def c1Stack : LayerStack :=
  { layers := [⟨2 ^ kSurfaceDamage, []⟩, ⟨0, []⟩], geometry_changed := false,
    skip_present := false, stitch_present := false, demura_present := false,
    needs_validate := false }

/-- The regenerated frame region-of-interest of the C1 witness, congruent to
the cached one. -/
def c1Roi : List Rect := [⟨0, 0, 100, 100⟩]

/-- Witness for C1: on the concrete inputs the fast path is taken and some
layer carries exactly the surface-damage bit. -/
theorem C1_fast_path_only_if_witness :
    CanSkipDisplayPrepare c1State c1Stack c1Roi c1Roi = true ∧
    (∃ l ∈ c1Stack.layers, l.update_mask = 2 ^ kSurfaceDamage) :=
  ⟨by decide, (C1_fast_path_only_if c1State c1Stack c1Roi c1Roi (by decide)).2.1⟩

/-- C2: after the post-commit step of a frame that used qsync mode OneShot,
the client-requested mode is reset to None; a frame that used
OneShotContinuous leaves the state unchanged; Continuous and None only clear
the needs-avr-update flag. -/
theorem C2_qsync_post_commit (s : QsyncState)
    (hsupp : s.qsync_support = true) (hfc : s.first_cycle = false) :
    (s.qsync_mode = kQsyncModeOneShot →
      (HandleQsyncPostCommit s).qsync_mode = kQSyncModeNone) ∧
    (s.qsync_mode = kQsyncModeOneShotContinuous →
      HandleQsyncPostCommit s = s) ∧
    ((s.qsync_mode = kQSyncModeContinuous ∨ s.qsync_mode = kQSyncModeNone) →
      HandleQsyncPostCommit s = { s with needs_avr_update := false }) := by
  refine ⟨fun h => ?_, fun h => ?_, fun h => ?_⟩
  · simp [HandleQsyncPostCommit, SetQSyncMode, h, hsupp, hfc]
  · simp [HandleQsyncPostCommit, h]
  · rcases h with h | h <;> simp [HandleQsyncPostCommit, h]

/-- Witness for C2 at a concrete OneShot state. -/
theorem C2_qsync_post_commit_witness :
    (HandleQsyncPostCommit
      { qsync_mode := kQsyncModeOneShot, active_qsync_mode := kQsyncModeOneShot,
        needs_avr_update := false, validated := true, qsync_support := true,
        panel_mode := HWDisplayMode.kModeVideo, first_cycle := false,
        handle_idle_timeout := false, enable_qsync_idle := false,
        avr_update := false, avr_mode := HWAVRModes.kOneShotMode }).qsync_mode
      = kQSyncModeNone :=
  (C2_qsync_post_commit _ rfl rfl).1 rfl

/-- C3: on a qsync-capable non-command-mode panel, a frame prepared while the
idle-timeout flag is set with qsync-on-idle enabled and a requested mode of
None or OneShot computes Continuous as the effective (active) mode without
mutating the stored request, and a frame prepared after the idle flag clears
computes the client-requested mode as the effective mode again. -/
theorem C3_idle_override (s : QsyncState)
    (hsupp : s.qsync_support = true)
    (hmode : s.panel_mode ≠ HWDisplayMode.kModeCommand) :
    ((s.handle_idle_timeout = true ∧ s.enable_qsync_idle = true ∧
        (s.qsync_mode = kQSyncModeNone ∨ s.qsync_mode = kQsyncModeOneShot)) →
      (UpdateQsyncMode s).active_qsync_mode = kQSyncModeContinuous ∧
      (UpdateQsyncMode s).qsync_mode = s.qsync_mode) ∧
    (s.handle_idle_timeout = false →
      (UpdateQsyncMode s).active_qsync_mode = s.qsync_mode) := by
  constructor
  · rintro ⟨h1, h2, _⟩
    simp [UpdateQsyncMode, hsupp, hmode, h1, h2]
  · intro h1
    simp [UpdateQsyncMode, hsupp, hmode, h1]

/-- Witness for C3 at a concrete idle state with a requested mode of None. -/
theorem C3_idle_override_witness :
    (UpdateQsyncMode
      { qsync_mode := kQSyncModeNone, active_qsync_mode := kQSyncModeNone,
        needs_avr_update := false, validated := true, qsync_support := true,
        panel_mode := HWDisplayMode.kModeVideo, first_cycle := false,
        handle_idle_timeout := true, enable_qsync_idle := true,
        avr_update := false, avr_mode := HWAVRModes.kQsyncNone }).active_qsync_mode
      = kQSyncModeContinuous :=
  ((C3_idle_override _ rfl (by decide)).1 ⟨rfl, rfl, Or.inl rfl⟩).1

/-- C4: on an active panel with dynamic rates 48..120, qsync off and the
qsync-on-idle property disabled, a non-final `SetRefreshRate(90)` issued
while the idle condition holds (`CanLowerFps` true) clamps the effective
current rate to the panel minimum 48; a subsequent final `SetRefreshRate(90)`
passes exactly 90 to the hardware (no clamping) and sets the current rate
to 90. Hardware and split-check results are taken as successful. -/
theorem C4_idle_clamp_then_final (s : RefreshState) (now1 now2 : Nat)
    (rc1 rc2 : DisplayError)
    (hact : s.active = true) (hdyn : s.dynamic_fps = true)
    (hq : s.qsync_mode = kQSyncModeNone) (hdd : s.disable_dyn_fps = false)
    (hqi : s.enable_qsync_idle = false)
    (hmin : s.min_fps = 48) (hmax : s.max_fps = 120)
    (hidle : CanLowerFps s true now1 = true) :
    (SetRefreshRate s 90 false true now1 kErrorNone kErrorNone rc1).state.current_refresh_rate
        = 48 ∧
    (SetRefreshRate
        (SetRefreshRate s 90 false true now1 kErrorNone kErrorNone rc1).state
        90 true true now2 kErrorNone kErrorNone rc2).state.current_refresh_rate = 90 ∧
    (SetRefreshRate
        (SetRefreshRate s 90 false true now1 kErrorNone kErrorNone rc1).state
        90 true true now2 kErrorNone kErrorNone rc2).hw_set_rate = some 90 := by
  have h1 : (SetRefreshRate s 90 false true now1 kErrorNone kErrorNone rc1).state
      = { s with current_refresh_rate := 48, deferred := s.deferred.MarkDirty } := by
    simp [SetRefreshRate, hact, hdyn, hq, hdd, hqi, hmin, hmax, hidle]
  refine ⟨by rw [h1], ?_, ?_⟩ <;>
    rw [h1] <;>
    simp [SetRefreshRate, CanLowerFps, hact, hdyn, hq, hdd, hqi, hmin, hmax]

/-- Witness for C4: a concrete idle state at 60 fps; the non-final request
for 90 lands at 48, the final one at 90. -/
theorem C4_idle_clamp_then_final_witness :
    (SetRefreshRate
      { active := true, dynamic_fps := true, qsync_mode := kQSyncModeNone,
        disable_dyn_fps := false, min_fps := 48, max_fps := 120,
        current_refresh_rate := 60, enable_qsync_idle := false,
        enhance_idle_time := false, handle_idle_timeout := true,
        idle_time_ms := 0, idle_timer_start_ms := 0,
        deferred := ⟨0, 0, 0, 0, 0, false⟩ }
      90 false true 0 kErrorNone kErrorNone kErrorNone).state.current_refresh_rate
      = 48 :=
  (C4_idle_clamp_then_final _ 0 0 kErrorNone kErrorNone rfl rfl rfl rfl rfl rfl rfl
    (by decide)).1

/-- C8 counterexample: a `SetRefreshRate` call whose target equals the current
rate (all acceptance preconditions met) is not a no-op. With a deferred fps
configuration pending (countdown 2, dirty flag clear), the call returns
success and skips the hardware rate command, but it marks the
deferred configuration dirty and invokes `ReconfigureDisplay`. -/
theorem C8_equal_rate_not_noop_counterexample :
    (SetRefreshRate
        { active := true, dynamic_fps := true, qsync_mode := kQSyncModeNone,
          disable_dyn_fps := false, min_fps := 48, max_fps := 120,
          current_refresh_rate := 60, enable_qsync_idle := false,
          enhance_idle_time := false, handle_idle_timeout := false,
          idle_time_ms := 0, idle_timer_start_ms := 0,
          deferred := ⟨60, 16666666, 500, 2, 2, false⟩ }
        60 true false 0 kErrorNone kErrorNone kErrorNone).result = kErrorNone ∧
    (SetRefreshRate
        { active := true, dynamic_fps := true, qsync_mode := kQSyncModeNone,
          disable_dyn_fps := false, min_fps := 48, max_fps := 120,
          current_refresh_rate := 60, enable_qsync_idle := false,
          enhance_idle_time := false, handle_idle_timeout := false,
          idle_time_ms := 0, idle_timer_start_ms := 0,
          deferred := ⟨60, 16666666, 500, 2, 2, false⟩ }
        60 true false 0 kErrorNone kErrorNone kErrorNone).hw_set_rate = none ∧
    (SetRefreshRate
        { active := true, dynamic_fps := true, qsync_mode := kQSyncModeNone,
          disable_dyn_fps := false, min_fps := 48, max_fps := 120,
          current_refresh_rate := 60, enable_qsync_idle := false,
          enhance_idle_time := false, handle_idle_timeout := false,
          idle_time_ms := 0, idle_timer_start_ms := 0,
          deferred := ⟨60, 16666666, 500, 2, 2, false⟩ }
        60 true false 0 kErrorNone kErrorNone kErrorNone).state.deferred.dirty = true ∧
    (SetRefreshRate
        { active := true, dynamic_fps := true, qsync_mode := kQSyncModeNone,
          disable_dyn_fps := false, min_fps := 48, max_fps := 120,
          current_refresh_rate := 60, enable_qsync_idle := false,
          enhance_idle_time := false, handle_idle_timeout := false,
          idle_time_ms := 0, idle_timer_start_ms := 0,
          deferred := ⟨60, 16666666, 500, 2, 2, false⟩ }
        60 true false 0 kErrorNone kErrorNone kErrorNone).reconfigure_invoked = true := by
  decide

/-- C8 (amended): a final `SetRefreshRate` whose target equals the current
rate skips the hardware rate command, the split re-validation and the
current-rate change, and returns the `ReconfigureDisplay` result (success
when that call succeeds) - but it still marks the deferred configuration
dirty and invokes `ReconfigureDisplay`, so the deferred-configuration state
is not left unchanged. -/
theorem C8_equal_rate_skips_device (s : RefreshState) (rate now_ms : Nat)
    (idle_screen : Bool) (hw_r split_r rc : DisplayError)
    (hact : s.active = true) (hdyn : s.dynamic_fps = true)
    (hq : s.qsync_mode = kQSyncModeNone) (hdd : s.disable_dyn_fps = false)
    (hlo : s.min_fps ≤ rate) (hhi : rate ≤ s.max_fps)
    (heq : s.current_refresh_rate = rate) :
    SetRefreshRate s rate true idle_screen now_ms hw_r split_r rc =
      ⟨rc,
       { s with current_refresh_rate := rate, deferred := s.deferred.MarkDirty },
       none, false,
       s.enhance_idle_time && s.handle_idle_timeout && decide (rate = s.min_fps),
       true⟩ := by
  simp [SetRefreshRate, hact, hdyn, hq, hdd, heq, Nat.not_lt.mpr hlo,
    Nat.not_lt.mpr hhi, Nat.not_lt]

/-- Witness for the amended C8 at the counterexample's concrete state. -/
theorem C8_equal_rate_skips_device_witness :
    SetRefreshRate
      { active := true, dynamic_fps := true, qsync_mode := kQSyncModeNone,
        disable_dyn_fps := false, min_fps := 48, max_fps := 120,
        current_refresh_rate := 60, enable_qsync_idle := false,
        enhance_idle_time := false, handle_idle_timeout := false,
        idle_time_ms := 0, idle_timer_start_ms := 0,
        deferred := ⟨60, 16666666, 500, 2, 2, false⟩ }
      60 true false 0 kErrorNone kErrorNone kErrorNone =
      ⟨kErrorNone,
       { active := true, dynamic_fps := true, qsync_mode := kQSyncModeNone,
         disable_dyn_fps := false, min_fps := 48, max_fps := 120,
         current_refresh_rate := 60, enable_qsync_idle := false,
         enhance_idle_time := false, handle_idle_timeout := false,
         idle_time_ms := 0, idle_timer_start_ms := 0,
         deferred := ⟨60, 16666666, 500, 2, 2, true⟩ },
       none, false, false, true⟩ :=
  C8_equal_rate_skips_device _ 60 0 false kErrorNone kErrorNone kErrorNone
    rfl rfl rfl rfl (by decide) (by decide) rfl

/-- C9 counterexample: requesting a mode equal to the current *active* mode is
not a no-op. With requested mode None and active mode Continuous (the idle
override in effect), `SetQSyncMode(Continuous)` succeeds but raises the
needs-avr-update flag and clears the validation state. -/
theorem C9_active_mode_not_noop_counterexample :
    let s : QsyncState :=
      { qsync_mode := kQSyncModeNone, active_qsync_mode := kQSyncModeContinuous,
        needs_avr_update := false, validated := true, qsync_support := true,
        panel_mode := HWDisplayMode.kModeVideo, first_cycle := false,
        handle_idle_timeout := false, enable_qsync_idle := true,
        avr_update := false, avr_mode := HWAVRModes.kContinuousMode }
    s.active_qsync_mode = kQSyncModeContinuous ∧
    (SetQSyncMode s kQSyncModeContinuous).1 = kErrorNone ∧
    (SetQSyncMode s kQSyncModeContinuous).2.needs_avr_update = true ∧
    (SetQSyncMode s kQSyncModeContinuous).2.validated = false ∧
    s.needs_avr_update = false ∧ s.validated = true := by
  decide

/-- C9 (amended): `SetQSyncMode` is a no-op returning success exactly when the
requested mode equals the *stored client-requested* mode `qsync_mode_`; the
state (needs-avr-update flag, stored mode, validation state) is returned
unchanged. -/
theorem C9_requested_mode_noop (s : QsyncState) (m : QSyncMode)
    (hsupp : s.qsync_support = true) (hfc : s.first_cycle = false)
    (heq : s.qsync_mode = m) :
    SetQSyncMode s m = (kErrorNone, s) := by
  simp [SetQSyncMode, hsupp, hfc, heq]

/-- Witness for the amended C9 at a concrete state. -/
theorem C9_requested_mode_noop_witness :
    SetQSyncMode
      { qsync_mode := kQSyncModeContinuous, active_qsync_mode := kQSyncModeContinuous,
        needs_avr_update := false, validated := true, qsync_support := true,
        panel_mode := HWDisplayMode.kModeVideo, first_cycle := false,
        handle_idle_timeout := false, enable_qsync_idle := false,
        avr_update := false, avr_mode := HWAVRModes.kContinuousMode }
      kQSyncModeContinuous
      = (kErrorNone,
        { qsync_mode := kQSyncModeContinuous, active_qsync_mode := kQSyncModeContinuous,
          needs_avr_update := false, validated := true, qsync_support := true,
          panel_mode := HWDisplayMode.kModeVideo, first_cycle := false,
          handle_idle_timeout := false, enable_qsync_idle := false,
          avr_update := false, avr_mode := HWAVRModes.kContinuousMode }) :=
  C9_requested_mode_noop _ _ rfl rfl rfl

/-- C10: `GetQSyncMode` reports the active (effective) mode: after a frame
prepared under the idle override it returns Continuous although the stored
client request (None or OneShot) was never mutated and differs from
Continuous, so the override is observable through this query. -/
theorem C10_get_qsync_reports_active (s : QsyncState)
    (hsupp : s.qsync_support = true)
    (hmode : s.panel_mode ≠ HWDisplayMode.kModeCommand)
    (hidle : s.handle_idle_timeout = true) (hqi : s.enable_qsync_idle = true)
    (hreq : s.qsync_mode = kQSyncModeNone ∨ s.qsync_mode = kQsyncModeOneShot) :
    (GetQSyncMode (UpdateQsyncMode s)).2 = kQSyncModeContinuous ∧
    (UpdateQsyncMode s).qsync_mode = s.qsync_mode ∧
    s.qsync_mode ≠ kQSyncModeContinuous := by
  refine ⟨?_, ?_, ?_⟩
  · simp [GetQSyncMode, UpdateQsyncMode, hsupp, hmode, hidle, hqi]
  · simp [UpdateQsyncMode, hsupp, hmode, hidle, hqi]
  · rcases hreq with h | h <;> simp [h]

/-- Witness for C10 at a concrete idle-override state with requested mode
OneShot. -/
theorem C10_get_qsync_reports_active_witness :
    (GetQSyncMode (UpdateQsyncMode
      { qsync_mode := kQsyncModeOneShot, active_qsync_mode := kQsyncModeOneShot,
        needs_avr_update := false, validated := true, qsync_support := true,
        panel_mode := HWDisplayMode.kModeVideo, first_cycle := false,
        handle_idle_timeout := true, enable_qsync_idle := true,
        avr_update := false, avr_mode := HWAVRModes.kOneShotMode })).2
      = kQSyncModeContinuous :=
  (C10_get_qsync_reports_active _ rfl (by decide) rfl rfl (Or.inr rfl)).1

/-- C5 counterexample: the round-trip law fails for small brightness values.
Setting brightness 1/512 on a panel with min 0 and max 255 computes integer
level 0 (truncation of 255/512) with remainder 255/512, and reading level 0
back returns the off sentinel -1, not 1/512. -/
theorem C5_roundtrip_counterexample :
    SetPanelBrightnessLevel 0 255 (1 / 512) = .ok (0, 255 / 512) ∧
    GetPanelBrightnessFromLevel 0 255 (255 / 512) 0 = .ok (-1) ∧
    (-1 : ℚ) ≠ 1 / 512 := by
  refine ⟨?_, ?_, by norm_num⟩
  · rw [SetPanelBrightnessLevel]
    rw [if_neg (by push_neg; intro _; constructor <;> norm_num)]
    rw [if_neg (by norm_num)]
    rw [if_neg (by norm_num)]
    rw [show ((1 : ℚ) / 512 * (255 - 0) + 0) = 255 / 512 by norm_num]
    have h0 : cppTruncInt ((255 : ℚ) / 512) = 0 := by
      rw [cppTruncInt, if_pos (by norm_num)]
      rw [Int.floor_eq_zero_iff]
      constructor <;> norm_num
    simp only [h0]
    norm_num
  · rw [GetPanelBrightnessFromLevel]
    norm_num

/-- C5 (amended): whenever the computed integer level is nonzero and at least
the panel minimum (with 0 ≤ min < max and brightness in [0,1]), the
level/remainder pair computed by `SetPanelBrightness` reads back through
`GetPanelBrightnessFromLevel` as exactly the original brightness (exact
rational model of the float computation); the concrete 0.5 / min 0 / max 255
case gives level 127 and remainder 1/2. Levels truncating to 0 instead read
back as the off sentinel -1. -/
theorem C5_roundtrip (min max b : ℚ) (hmin : 0 ≤ min) (hlt : min < max)
    (hb0 : 0 ≤ b) (hb1 : b ≤ 1)
    (hnz : cppTruncInt (b * (max - min) + min) ≠ 0)
    (hge : min ≤ (cppTruncInt (b * (max - min) + min) : ℚ)) :
    SetPanelBrightnessLevel min max b =
      .ok (cppTruncInt (b * (max - min) + min),
           b * (max - min) + min - (cppTruncInt (b * (max - min) + min) : ℚ)) ∧
    GetPanelBrightnessFromLevel min max
      (b * (max - min) + min - (cppTruncInt (b * (max - min) + min) : ℚ))
      ((cppTruncInt (b * (max - min) + min) : ℚ)) = .ok b := by
  have hne : max - min ≠ 0 := sub_ne_zero.2 (ne_of_gt hlt)
  have ht0 : 0 ≤ b * (max - min) + min := by
    have : 0 ≤ b * (max - min) := mul_nonneg hb0 (by linarith)
    linarith
  have htmax : b * (max - min) + min ≤ max := by
    have : b * (max - min) ≤ 1 * (max - min) :=
      mul_le_mul_of_nonneg_right hb1 (by linarith)
    linarith
  have hfloor : cppTruncInt (b * (max - min) + min)
      = ⌊b * (max - min) + min⌋ := by
    rw [cppTruncInt, if_pos ht0]
  have hlev_le : (cppTruncInt (b * (max - min) + min) : ℚ) ≤ max := by
    rw [hfloor]
    exact le_trans (Int.floor_le _) htmax
  constructor
  · rw [SetPanelBrightnessLevel]
    rw [if_neg (by push_neg; intro _; exact ⟨hb0, hb1⟩)]
    rw [if_neg (by intro hbm1; rw [hbm1] at hb0; norm_num at hb0)]
    rw [if_neg (by exact not_le.2 hlt)]
  · rw [GetPanelBrightnessFromLevel]
    rw [if_neg (by exact_mod_cast hnz)]
    rw [if_pos ⟨hlt, hge, hlev_le⟩]
    congr 1
    rw [show (cppTruncInt (b * (max - min) + min) : ℚ)
          + (b * (max - min) + min - (cppTruncInt (b * (max - min) + min) : ℚ))
          - min = b * (max - min) by ring]
    exact mul_div_cancel_right₀ b hne

/-- Witness for the amended C5: brightness 0.5 with min 0, max 255 gives
level 127 with remainder 1/2, and reads back as exactly 1/2. -/
theorem C5_roundtrip_witness :
    SetPanelBrightnessLevel 0 255 (1 / 2) = .ok (127, 1 / 2) ∧
    GetPanelBrightnessFromLevel 0 255 (1 / 2) 127 = .ok (1 / 2) := by
  have e : cppTruncInt ((1 : ℚ) / 2 * (255 - 0) + 0) = 127 := by
    rw [cppTruncInt, if_pos (by norm_num)]
    rw [show ((1 : ℚ) / 2 * (255 - 0) + 0) = 127 + 1 / 2 by norm_num]
    rw [Int.floor_eq_iff]
    constructor <;> norm_num
  have h := C5_roundtrip 0 255 (1 / 2) (by norm_num) (by norm_num) (by norm_num)
    (by norm_num) (by rw [e]; norm_num) (by rw [e]; norm_num)
  rw [e] at h
  norm_num at h ⊢
  exact h

/-- The concrete `Init` environment of C6: hardware interface and base init
succeed, `HWEventsInterface::Create` fails with a resource error, the
panel-feature factory is present, SPR is disabled by property and demura is
globally off. -/
def c6Env : InitEnv :=
  { hw_create := kErrorNone, base_init := kErrorNone,
    events_create := kErrorResources, pf_factory_present := true,
    spr_prop_enabled := false, spr_create_ok := true, spr_init_ret := 0,
    demura_enabled := false, demura_disable_prop := 0, demura_create_ok := false,
    demura_init_ret := 0, demura_setup_layer := kErrorNone,
    demura_set_status_ret := 0 }

/-- C6: a failed `HWEventsInterface::Create` is not fatal to `Init` as the
code stands. On `c6Env` the failure runs the unwind pair (base deinit,
hardware-interface destroy) but execution falls through: color-sampling
setup, SPR and demura setup and noise init still run, and `Init` returns
success because the panel-feature path overwrites the local error with the
`SetupSPR` result - contradicting the documented fatal/unwind-and-return
behaviour (the two preceding failure branches do return immediately). -/
theorem C6_event_interface_failure_not_fatal :
    c6Env.events_create = kErrorResources ∧
    (Init c6Env).1 = kErrorNone ∧
    (Init c6Env).2 =
      [.createHWInterface, .baseInit, .createHWEvents, .baseDeinit,
       .destroyHWInterface, .initColorSamplingState, .setupSPR, .setupDemura,
       .freeDemuraFetchResources, .setDemuraStatusForDisplay false,
       .noiseInit] := by
  decide

/-- The concrete `Init` environment of the C7 counterexample: everything
succeeds except `CreateSPRIntf`, which returns null. -/
def c7SprEnv : InitEnv :=
  { hw_create := kErrorNone, base_init := kErrorNone,
    events_create := kErrorNone, pf_factory_present := true,
    spr_prop_enabled := true, spr_create_ok := false, spr_init_ret := 0,
    demura_enabled := false, demura_disable_prop := 0, demura_create_ok := false,
    demura_init_ret := 0, demura_setup_layer := kErrorNone,
    demura_set_status_ret := 0 }

/-- C7 counterexample: not every panel-feature plugin failure is non-fatal.
A failed SPR setup (null `CreateSPRIntf`) makes `Init` unwind and return the
resource error - `Init` does not return success. -/
theorem C7_spr_failure_fatal_counterexample :
    (Init c7SprEnv).1 = kErrorResources ∧
    (Init c7SprEnv).1 ≠ kErrorNone ∧
    (Init c7SprEnv).2 =
      [.createHWInterface, .baseInit, .createHWEvents, .initColorSamplingState,
       .setupSPR, .baseDeinit, .destroyHWInterface] := by
  decide

/-- C7 (amended): a demura setup failure is non-fatal - `Init` still returns
success, the demura feature is marked disabled for the display and its fetch
resources are released - whereas an SPR setup failure is fatal (the
counterexample). -/
theorem C7_demura_failure_non_fatal (env : InitEnv)
    (h1 : env.hw_create = kErrorNone) (h2 : env.base_init = kErrorNone)
    (h3 : env.events_create = kErrorNone) (h4 : env.pf_factory_present = true)
    (h5 : SetupSPR env.spr_prop_enabled env.spr_create_ok env.spr_init_ret
            = kErrorNone)
    (h6 : (SetupDemura env.demura_enabled env.demura_disable_prop
             env.demura_create_ok env.demura_init_ret env.demura_setup_layer
             env.demura_set_status_ret).1 ≠ kErrorNone) :
    (Init env).1 = kErrorNone ∧
    InitAction.freeDemuraFetchResources ∈ (Init env).2 ∧
    InitAction.setDemuraStatusForDisplay false ∈ (Init env).2 := by
  refine ⟨?_, ?_, ?_⟩ <;> simp [Init, h1, h2, h3, h4, h5, h6, List.mem_append]

/-- Witness for the amended C7: a concrete environment where demura's own
`Init` returns nonzero; `Init` succeeds and disables the feature. -/
theorem C7_demura_failure_non_fatal_witness :
    (Init
      { hw_create := kErrorNone, base_init := kErrorNone,
        events_create := kErrorNone, pf_factory_present := true,
        spr_prop_enabled := false, spr_create_ok := true, spr_init_ret := 0,
        demura_enabled := true, demura_disable_prop := 0,
        demura_create_ok := true, demura_init_ret := 1,
        demura_setup_layer := kErrorNone, demura_set_status_ret := 0 }).1
      = kErrorNone :=
  (C7_demura_failure_non_fatal _ rfl rfl rfl rfl (by decide) (by decide)).1

end sdm
